import Mathlib

/-!
Shallow embedding of the Contiv-VPP L2 cluster validator
(`plugins/crd/validator/l2/l2_validator.go`) together with proofs about its
behaviour.

Modelling conventions:
* Go maps are modelled as association lists (`List (key × value)`); lookup
  returns the first binding, insertion-built sets (`map[string]bool`) are
  modelled by `goNameSet`, and `delete` is modelled by `List.filter`.
* Go `uint32` arithmetic is `Nat` arithmetic modulo `2 ^ 32`.
* The report sink is a list of structured messages, one constructor per
  `fmt.Sprintf` format string of the source (rendering is immaterial to the
  properties proved here).
* Fallible Go operations (index lookups that return `(value, ok)`, cache
  retrievals that return `(node, err)`) become `Option`; a Go panic (slice
  index out of range) makes the embedded function return `none` at the top
  level.
-/

namespace ContivL2

/-- Interface types from the vpp-agent interface model (only the
constructors the validator inspects, plus a catch-all). -/
inductive InterfaceType where
  | UNDEFINED
  | SOFTWARE_LOOPBACK
  | VXLAN_TUNNEL
  | TAP_INTERFACE
  | ETHERNET_CSMACD
  deriving DecidableEq, Repr

/-- The `Vxlan` sub-record of an interface. -/
structure VxlanRecord where
  SrcAddress : String
  DstAddress : String
  Vni : Nat
  deriving DecidableEq, Repr

/-- The configured part (`If`) of a node interface. -/
structure IfRecord where
  Name : String
  IfType : InterfaceType
  PhysAddress : String
  IPAddresses : List String
  Vxlan : VxlanRecord
  deriving DecidableEq, Repr

/-- The metadata part (`IfMeta`) of a node interface. -/
structure IfMetaRecord where
  VppInternalName : String
  SwIfIndex : Nat
  deriving DecidableEq, Repr

/-- A node interface: configuration plus metadata. -/
structure NodeInterface where
  If : IfRecord
  IfMeta : IfMetaRecord
  deriving DecidableEq, Repr

/-- A member interface of a bridge domain. -/
structure BdInterface where
  Name : String
  BVI : Bool
  deriving DecidableEq, Repr

/-- The configured part (`Bd`) of a bridge domain. -/
structure BdRecord where
  Name : String
  Interfaces : List BdInterface
  deriving DecidableEq, Repr

/-- Bridge-domain metadata: the id-to-name map (`BdID2Name`). -/
structure BdMetaRecord where
  BdID2Name : List (Nat × String)
  deriving DecidableEq, Repr

/-- A bridge domain: configuration plus metadata. -/
structure NodeBridgeDomain where
  Bd : BdRecord
  BdMeta : BdMetaRecord
  deriving DecidableEq, Repr

/-- The configured part (`Ae`) of an ARP entry. -/
structure ArpEntryRecord where
  PhysAddress : String
  IPAddress : String
  Static : Bool
  deriving DecidableEq, Repr

/-- ARP entry metadata: the owning interface index. -/
structure ArpEntryMeta where
  IfIndex : Nat
  deriving DecidableEq, Repr

/-- An ARP table entry: configuration plus metadata. -/
structure NodeIPArpEntry where
  Ae : ArpEntryRecord
  AeMeta : ArpEntryMeta
  deriving DecidableEq, Repr

/-- The configured part (`Fe`) of an L2 FIB entry. -/
structure FeRecord where
  PhysAddress : String
  BridgedVirtualInterface : Bool
  StaticConfig : Bool
  OutgoingIfName : String
  deriving DecidableEq, Repr

/-- L2 FIB entry metadata. -/
structure FeMetaRecord where
  BridgeDomainID : Nat
  OutgoingIfIndex : Nat
  deriving DecidableEq, Repr

/-- An L2 FIB entry: configuration plus metadata. -/
structure NodeL2FibEntry where
  Fe : FeRecord
  FeMeta : FeMetaRecord
  deriving DecidableEq, Repr

/-- A pod record.  Go passes pods around as `*Pod` pointers; the `ID` field
models the pointer identity, so two structurally equal pods with different
`ID`s model two distinct heap objects.  The four `Vpp…` fields are the
dataplane-binding fields written by the tap binder. -/
structure Pod where
  ID : Nat
  Name : String
  HostIPAddress : String
  IPAddress : String
  VppIfIPAddr : String
  VppIfInternalName : String
  VppIfName : String
  VppSwIfIdx : Nat
  deriving DecidableEq, Repr

/-- A per-node dataplane snapshot (`telemetrymodel.Node`), restricted to the
fields the L2 validator reads.  `NodeInterfaces` and `NodeL2Fibs` are Go
maps, modelled as association lists; `PodMap` maps a pod name to the shared
pod object (`*Pod`). -/
structure Node where
  Name : String
  NodeInterfaces : List (Nat × NodeInterface)
  NodeBridgeDomains : List NodeBridgeDomain
  NodeIPArp : List NodeIPArpEntry
  NodeL2Fibs : List (String × NodeL2FibEntry)
  PodMap : List (String × Pod)
  deriving DecidableEq, Repr

/-- One address of a K8s node.  `AddrType` models the numeric address type
(`adr.Type` in the source; 1 = hostname, 3 = internal IP). -/
structure K8sNodeAddress where
  AddrType : Nat
  Address : String
  deriving DecidableEq, Repr

/-- A K8s node record. -/
structure K8sNode where
  Name : String
  Pod_CIDR : String
  Addresses : List K8sNodeAddress
  deriving DecidableEq, Repr

/-- Association-list lookup for string-keyed Go maps. -/
def lookupStr {α : Type} (m : List (String × α)) (k : String) : Option α :=
  (m.find? (fun p => p.1 == k)).map (fun p => p.2)

/-- Association-list lookup for int-keyed Go maps. -/
def lookupNat {α : Type} (m : List (Nat × α)) (k : Nat) : Option α :=
  (m.find? (fun p => p.1 == k)).map (fun p => p.2)

/-- The VPP telemetry cache with its secondary indices
(`api.VppCache`). -/
structure VppCache where
  nodes : List Node
  loopMacMap : List (String × Node)
  loopIPMap : List (String × Node)
  gigEIPMap : List (String × Node)
  hostIPMap : List (String × Node)
  deriving DecidableEq, Repr

def VppCache.RetrieveAllNodes (c : VppCache) : List Node := c.nodes

def VppCache.RetrieveNodeByLoopMacAddr (c : VppCache) (mac : String) : Option Node :=
  lookupStr c.loopMacMap mac

def VppCache.RetrieveNodeByLoopIPAddr (c : VppCache) (ip : String) : Option Node :=
  lookupStr c.loopIPMap ip

def VppCache.RetrieveNodeByGigEIPAddr (c : VppCache) (ip : String) : Option Node :=
  lookupStr c.gigEIPMap ip

def VppCache.RetrieveNodeByHostIPAddr (c : VppCache) (ip : String) : Option Node :=
  lookupStr c.hostIPMap ip

/-- The K8s state cache (`api.K8sCache`). -/
structure K8sCache where
  k8sNodes : List K8sNode
  pods : List Pod
  deriving DecidableEq, Repr

def K8sCache.RetrieveK8sNode (c : K8sCache) (name : String) : Option K8sNode :=
  c.k8sNodes.find? (fun n => n.Name == name)

def K8sCache.RetrieveAllPods (c : K8sCache) : List Pod := c.pods

/-- The distinguished global report bucket (`api.GlobalMsg`); its exact
string value is immaterial, it only has to differ from node names used in
concrete fixtures. -/
def GlobalMsg : String := "global"

/-- The expected overlay VNI (`api.VppVNI`, value 10 per the source
comment). -/
def VppVNI : Nat := 10

/-- Whether the character list `sub` occurs at the start of the first
list. -/
def startsWithL : List Char → List Char → Bool
  | _, [] => true
  | [], _ :: _ => false
  | a :: as, b :: bs => a == b && startsWithL as bs

/-- Worker for `goSplit`: splits around each (non-overlapping, leftmost)
occurrence of the non-empty separator `sep`, keeping the accumulated
current field in reverse.  `fuel` only bounds the recursion; any fuel
above the input length is enough. -/
def splitFuel (sep : List Char) : Nat → List Char → List Char → List (List Char)
  | 0, _, cur => [cur.reverse]
  | fuel + 1, s, cur =>
      match s with
      | [] => [cur.reverse]
      | c :: rest =>
          if startsWithL s sep then
            cur.reverse :: splitFuel sep fuel (s.drop sep.length) []
          else
            splitFuel sep fuel rest (c :: cur)

/-- Go `strings.Split` with a non-empty separator (the only way the
validator calls it). -/
def goSplit (s sep : String) : List String :=
  (splitFuel sep.toList (s.toList.length + 1) s.toList []).map (fun l => String.mk l)

/-- Decimal digit test for `goAtoi`. -/
def isDigitCh (c : Char) : Bool := '0' ≤ c && c ≤ '9'

/-- Value of a list of decimal digits. -/
def digitsVal (l : List Char) : Nat :=
  l.foldl (fun n c => n * 10 + (c.toNat - '0'.toNat)) 0

/-- Go `strconv.Atoi` (i.e. `ParseInt(s, 10, 0)` on a 64-bit platform).
Returns the parsed value together with a success flag.  On a syntax error
the value is 0; on a range error it is the clamped max/min 64-bit int
(both with the flag `false`), exactly as Go documents. -/
def goAtoi (s : String) : Int × Bool :=
  let cs := s.toList
  let signed : Bool × List Char :=
    match cs with
    | '-' :: rest => (true, rest)
    | '+' :: rest => (false, rest)
    | _ => (false, cs)
  let neg := signed.1
  let ds := signed.2
  if ds.isEmpty || !(ds.all isDigitCh) then (0, false)
  else
    let n := digitsVal ds
    if neg then
      if n > 2 ^ 63 then (-(2 ^ 63 : Int), false) else (-(n : Int), true)
    else
      if n > 2 ^ 63 - 1 then ((2 ^ 63 - 1 : Int), false) else ((n : Int), true)

/-- The loop body of `maskLength2Mask`, iterated `k` times: shift left one
bit (wrapping at 32 bits, Go `uint32`) then increment. -/
def maskLoop : Nat → Nat → Nat
  | m, 0 => m
  | m, Nat.succ k => maskLoop (((m * 2) % 2 ^ 32 + 1) % 2 ^ 32) k

/-- `maskLength2Mask` from the source: a `uint32` mask built by running the
loop body `32 - ml` times starting from zero.  When `32 - ml` is negative
the Go loop body never runs and the mask is zero. -/
def maskLength2Mask (ml : Int) : Nat := maskLoop 0 (32 - ml).toNat

/-- `ip2uint32` from the source: split a dotted-decimal string on `"."`,
parse each part with `Atoi` ignoring its error, and accumulate
`ipu = ipu<<8 + uint32(num)` in wrapping `uint32` arithmetic. -/
def ip2uint32 (ipAddress : String) : Nat :=
  (goSplit ipAddress ".").foldl
    (fun ipu p => ((ipu * 256) % 2 ^ 32 + (((goAtoi p).1 % (2 ^ 32 : Int)).toNat)) % 2 ^ 32) 0

/-- Whether the character list `sub` occurs anywhere in the second list. -/
def containsL (sub : List Char) : List Char → Bool
  | [] => startsWithL [] sub
  | c :: rest => startsWithL (c :: rest) sub || containsL sub rest

/-- Go `strings.Contains s sub`. -/
def goContains (s sub : String) : Bool := containsL sub.toList s.toList

/-- A Go `map[string]bool` used as a set and built by inserting each list
element in order: keeps the first occurrence of each name. -/
def goNameSet (names : List String) : List String :=
  names.foldl (fun acc x => if acc.contains x then acc else acc ++ [x]) []

/-- Structured report messages of the ARP table validator: one constructor
per `fmt.Sprintf` format string in `ValidateArpTables`, carrying the
formatted arguments. -/
inductive ArpMsg where
  | badIfIndex (phys ip : String) (ifIdx : Nat)
  | badMacAddress (phys ip : String)
  | badIPAddress (phys ip : String)
  | arpMismatch (phys ip macNodeName ipNodeName : String)
  | missingArpEntry (peer : String)
  | arpValidationOK
  | arpValidationErrs (n : Nat)
  deriving DecidableEq

/-- Structured report messages of the VXLAN mesh validator
(`ValidateL2Connectivity`). -/
inductive L2Msg where
  | multipleVxlanBD
  | noVxlanBD
  | invalidIfIndex (ifIndex : Nat) (bdIfName : String)
  | duplicateBVI (bdIfName : String) (ifIndex : Nat) (ifName : String)
  | invalidBVIType (bdIfName : String) (ifIndex : Nat) (ifName : String)
  | invalidBDIfType (bdIfName : String) (ifIndex : Nat) (ifName : String)
  | badMacIndex (mac bdIfName : String) (ifIndex : Nat) (ifName : String)
  | badVNI (ifName internalName : String) (got expected : Nat)
  | srcIPNodeNotFound (src : String)
  | srcIPWrongNode (ifName src nodeName : String)
  | dstIPNodeNotFound (dst ifName : String)
  | noMatchingTunnel (remote ifName : String)
  | wrongNumIfs (got expected : Nat)
  | missingBVI
  | bdIfMissing (peer : String)
  | failedVxlanBD
  | l2ValidationOK
  | l2ValidationErrs (n : Nat)
  deriving DecidableEq

/-- Structured report messages of the L2 FIB validator
(`ValidateL2FibEntries`). -/
inductive FibMsg where
  | fibSkipNode (nodeName : String)
  | fibBviNoLoop (feKey nodeName : String)
  | fibBviBadMac (feKey got expecting : String)
  | fibMacIndexErr (mac : String)
  | fibOutIfMissing (phys outName : String) (outIdx : Nat)
  | fibRemoteNodeNotFound (feKey dst : String)
  | fibRemoteNoLoop (phys remote : String)
  | fibRemoteBadMac (feKey got expecting : String)
  | fibNoLoopEntry
  | fibMissingEntry (peer : String)
  | fibDanglingEntry (feKey : String)
  | fibValidationOK
  | fibValidationErrs (n : Nat)
  deriving DecidableEq

/-- Structured report messages of the pod info cross-validator
(`ValidatePodInfo`). -/
inductive PodMsg where
  | podNodeNotFound (pod hostIP : String)
  | podMapEntryMissing (pod nodeName : String)
  | podMapPodMismatch (ptrName podName : String)
  | k8sNodeMissing (nodeName : String)
  | podHostIPMismatch (podIP adr : String)
  | podHostNameMismatch (adr nodeName : String)
  | podProcessErr (pod : String)
  | podInfoOK
  deriving DecidableEq

/-- Structured report messages of the pod-to-tap binder
(`ValidateTapToPod`). -/
inductive TapMsg where
  | hostIPIndexErr (ip : String)
  | k8sNodeIndexErr (name : String)
  | invalidPodCIDR (cidr : String)
  deriving DecidableEq

/-! ## ARP Table Validator (`ValidateArpTables`) -/

/-- State threaded through the per-node ARP scan: the expected-peer set
(`loopNodeMap`), the reports appended to the node's bucket, and the error
counter. -/
structure ArpState where
  expected : List String
  reports : List ArpMsg
  errCnt : Nat
  deriving DecidableEq

/-- One iteration of the ARP-entry loop of `ValidateArpTables`:
skip non-static entries; resolve the owning interface (bad index is an
error); skip entries not on the `vxlanBVI` loopback; resolve the MAC and
the IP (the latter queried with the suffix `"/24"`) and report each
failure; on a node-name mismatch report it; finally delete the IP-resolved
node from the expected set (note the source deletes it even on a
mismatch). -/
def arpProcessEntry (cache : VppCache) (node : Node) (st : ArpState)
    (e : NodeIPArpEntry) : ArpState :=
  if !e.Ae.Static then st
  else
    match lookupNat node.NodeInterfaces e.AeMeta.IfIndex with
    | none =>
        { st with
          reports := st.reports ++ [ArpMsg.badIfIndex e.Ae.PhysAddress e.Ae.IPAddress e.AeMeta.IfIndex],
          errCnt := st.errCnt + 1 }
    | some arpIf =>
        if arpIf.If.IfType != InterfaceType.SOFTWARE_LOOPBACK || arpIf.If.Name != "vxlanBVI" then st
        else
          let macRes := cache.RetrieveNodeByLoopMacAddr e.Ae.PhysAddress
          let ipRes := cache.RetrieveNodeByLoopIPAddr (e.Ae.IPAddress ++ "/24")
          let st1 :=
            match macRes with
            | none =>
                { st with
                  reports := st.reports ++ [ArpMsg.badMacAddress e.Ae.PhysAddress e.Ae.IPAddress],
                  errCnt := st.errCnt + 1 }
            | some _ => st
          let st2 :=
            match ipRes with
            | none =>
                { st1 with
                  reports := st1.reports ++ [ArpMsg.badIPAddress e.Ae.PhysAddress e.Ae.IPAddress],
                  errCnt := st1.errCnt + 1 }
            | some _ => st1
          match macRes, ipRes with
          | some macNode, some ipNode =>
              let st3 :=
                if macNode.Name != ipNode.Name then
                  { st2 with
                    reports := st2.reports ++
                      [ArpMsg.arpMismatch e.Ae.PhysAddress e.Ae.IPAddress macNode.Name ipNode.Name],
                    errCnt := st2.errCnt + 1 }
                else st2
              { st3 with expected := st3.expected.filter (fun n => n != ipNode.Name) }
          | _, _ => st2

/-- The initial expected-peer set of a node: every other node's name,
inserted into a Go map. -/
def arpInitExpected (nodeList : List Node) (node : Node) : List String :=
  goNameSet ((nodeList.filter (fun n => n.Name != node.Name)).map (fun n => n.Name))

/-- The per-node body of `ValidateArpTables`: scan all ARP entries, then
append one missing-ARP-entry report per name left in the expected set
(all reports go to the node's bucket). -/
def arpScanNode (cache : VppCache) (nodeList : List Node) (node : Node) : ArpState :=
  let st := node.NodeIPArp.foldl (arpProcessEntry cache node)
    ⟨arpInitExpected nodeList node, [], 0⟩
  { st with
    reports := st.reports ++ st.expected.map (fun n => ArpMsg.missingArpEntry n),
    errCnt := st.errCnt + st.expected.length }


theorem goNameSet_fold_nodup (l : List String) :
    ∀ acc : List String, acc.Nodup →
      (l.foldl (fun acc x => if acc.contains x then acc else acc ++ [x]) acc).Nodup := by
  induction l with
  | nil => intro acc h; simpa using h
  | cons x xs ih =>
      intro acc h
      simp only [List.foldl_cons]
      by_cases hx : acc.contains x = true
      · rw [if_pos hx]; exact ih acc h
      · have hxm : x ∉ acc := by simpa using hx
        rw [if_neg hx]
        exact ih _ (by simp [List.nodup_append, h, hxm])

theorem goNameSet_nodup (l : List String) : (goNameSet l).Nodup :=
  goNameSet_fold_nodup l [] List.nodup_nil

theorem arpProcessEntry_expected (cache : VppCache) (node : Node) (st : ArpState)
    (e : NodeIPArpEntry) :
    (arpProcessEntry cache node st e).expected = st.expected ∨
    ∃ nm, (arpProcessEntry cache node st e).expected
        = st.expected.filter (fun n => n != nm) := by
  unfold arpProcessEntry
  split
  · exact Or.inl rfl
  · split
    · exact Or.inl rfl
    · split
      · exact Or.inl rfl
      · dsimp only
        cases hm : cache.RetrieveNodeByLoopMacAddr e.Ae.PhysAddress with
        | none =>
            cases hi : cache.RetrieveNodeByLoopIPAddr (e.Ae.IPAddress ++ "/24") with
            | none => exact Or.inl rfl
            | some ipNode => exact Or.inl rfl
        | some macNode =>
            cases hi : cache.RetrieveNodeByLoopIPAddr (e.Ae.IPAddress ++ "/24") with
            | none => exact Or.inl rfl
            | some ipNode =>
                dsimp only
                refine Or.inr ⟨ipNode.Name, ?_⟩
                split <;> rfl

theorem arpProcessEntry_count_missing (cache : VppCache) (node : Node) (st : ArpState)
    (e : NodeIPArpEntry) (p : String) :
    ((arpProcessEntry cache node st e).reports).count (ArpMsg.missingArpEntry p)
      = st.reports.count (ArpMsg.missingArpEntry p) := by
  unfold arpProcessEntry
  split
  · rfl
  · split
    · simp [List.count_append]
    · split
      · rfl
      · dsimp only
        cases hm : cache.RetrieveNodeByLoopMacAddr e.Ae.PhysAddress with
        | none =>
            cases hi : cache.RetrieveNodeByLoopIPAddr (e.Ae.IPAddress ++ "/24") with
            | none => simp [List.count_append]
            | some ipNode => simp [List.count_append]
        | some macNode =>
            cases hi : cache.RetrieveNodeByLoopIPAddr (e.Ae.IPAddress ++ "/24") with
            | none => simp [List.count_append]
            | some ipNode =>
                dsimp only
                split <;> simp [List.count_append]

theorem arpFold_count_missing (cache : VppCache) (node : Node)
    (l : List NodeIPArpEntry) (st : ArpState) (p : String) :
    ((l.foldl (arpProcessEntry cache node) st).reports).count (ArpMsg.missingArpEntry p)
      = st.reports.count (ArpMsg.missingArpEntry p) := by
  induction l generalizing st with
  | nil => rfl
  | cons e es ih => rw [List.foldl_cons, ih, arpProcessEntry_count_missing]

theorem arpFold_expected_nodup (cache : VppCache) (node : Node)
    (l : List NodeIPArpEntry) (st : ArpState) (h : st.expected.Nodup) :
    ((l.foldl (arpProcessEntry cache node) st).expected).Nodup := by
  induction l generalizing st with
  | nil => exact h
  | cons e es ih =>
      rw [List.foldl_cons]
      apply ih
      rcases arpProcessEntry_expected cache node st e with heq | ⟨nm, heq⟩
      · rw [heq]; exact h
      · rw [heq]; exact h.filter _

theorem count_map_missing (l : List String) (p : String) :
    (l.map (fun n => ArpMsg.missingArpEntry n)).count (ArpMsg.missingArpEntry p)
      = l.count p := by
  induction l with
  | nil => rfl
  | cons a l ih => simp [List.count_cons, ih]

theorem count_nodup_mem (l : List String) (p : String) (h : l.Nodup) :
    l.count p = if p ∈ l then 1 else 0 := by
  by_cases hp : p ∈ l
  · simp [hp, List.count_eq_one_of_mem h hp]
  · simp [hp, List.count_eq_zero_of_not_mem hp]

theorem arpEntry_both_resolved (cache : VppCache) (node : Node) (st : ArpState)
    (e : NodeIPArpEntry) (arpIf : NodeInterface) (macNode ipNode : Node)
    (hS : e.Ae.Static = true)
    (hIf : lookupNat node.NodeInterfaces e.AeMeta.IfIndex = some arpIf)
    (hT : arpIf.If.IfType = InterfaceType.SOFTWARE_LOOPBACK)
    (hN : arpIf.If.Name = "vxlanBVI")
    (hM : cache.RetrieveNodeByLoopMacAddr e.Ae.PhysAddress = some macNode)
    (hI : cache.RetrieveNodeByLoopIPAddr (e.Ae.IPAddress ++ "/24") = some ipNode) :
    (arpProcessEntry cache node st e).expected
        = st.expected.filter (fun n => n != ipNode.Name) ∧
    (macNode.Name ≠ ipNode.Name →
      ArpMsg.arpMismatch e.Ae.PhysAddress e.Ae.IPAddress macNode.Name ipNode.Name
        ∈ (arpProcessEntry cache node st e).reports) := by
  unfold arpProcessEntry
  simp only [hS, hIf, hT, hN, hM, hI, bne_self_eq_false, Bool.or_self, Bool.not_true,
    Bool.false_eq_true, if_false]
  constructor
  · split <;> rfl
  · intro hne
    have hb : (macNode.Name != ipNode.Name) = true := by simpa using hne
    rw [if_pos hb]
    simp


/-- Node fixtures for the ARP counterexample: three nodes A, B, C. -/
def arpNodeB : Node :=
  { Name := "B", NodeInterfaces := [], NodeBridgeDomains := [], NodeIPArp := [],
    NodeL2Fibs := [], PodMap := [] }

def arpNodeC : Node :=
  { Name := "C", NodeInterfaces := [], NodeBridgeDomains := [], NodeIPArp := [],
    NodeL2Fibs := [], PodMap := [] }

def arpIfA : NodeInterface :=
  { If := { Name := "vxlanBVI", IfType := .SOFTWARE_LOOPBACK, PhysAddress := "de:ad",
            IPAddresses := [], Vxlan := ⟨"", "", 0⟩ },
    IfMeta := ⟨"loop0", 1⟩ }

def arpEntryA : NodeIPArpEntry := ⟨⟨"aa:bb", "192.168.16.3", true⟩, ⟨4⟩⟩

def arpNodeA : Node :=
  { Name := "A", NodeInterfaces := [(4, arpIfA)], NodeBridgeDomains := [],
    NodeIPArp := [arpEntryA], NodeL2Fibs := [], PodMap := [] }

/-- Cache in which the single static ARP entry on node A's `vxlanBVI`
resolves by MAC to node B but by IP to node C. -/
def arpCacheC4 : VppCache :=
  { nodes := [arpNodeA, arpNodeB, arpNodeC],
    loopMacMap := [("aa:bb", arpNodeB)],
    loopIPMap := [("192.168.16.3/24", arpNodeC)],
    gigEIPMap := [], hostIPMap := [] }

/-- **C4, counterexample.**  On node A the only static BVI ARP entry's MAC
resolves to node B and its IP to node C (a mismatch).  The claim says the
peer then stays in the expected set, yet the scan removes C: afterwards
only B is left expected, the mismatch is reported, and no missing-ARP
report is emitted for C. -/
theorem C4_counterexample :
    (arpScanNode arpCacheC4 arpCacheC4.nodes arpNodeA).expected = ["B"] ∧
    ArpMsg.arpMismatch "aa:bb" "192.168.16.3" "B" "C"
      ∈ (arpScanNode arpCacheC4 arpCacheC4.nodes arpNodeA).reports ∧
    ArpMsg.missingArpEntry "C"
      ∉ (arpScanNode arpCacheC4 arpCacheC4.nodes arpNodeA).reports := by
  decide

/-- **C4 (amended).**  For every static ARP entry on the overlay BVI whose
MAC and IP both resolve, the IP-resolved peer is removed from the
expected-peer set whether or not the MAC-resolved node matches (a mismatch
is additionally reported), and after the scan every name still in the
expected set yields exactly one missing-ARP-entry report for that node. -/
theorem C4_arp_peer_removal_and_missing_reports
    (cache : VppCache) (nodeList : List Node) (node : Node) (p : String) :
    (∀ (st : ArpState) (e : NodeIPArpEntry) (arpIf : NodeInterface) (macNode ipNode : Node),
        e.Ae.Static = true →
        lookupNat node.NodeInterfaces e.AeMeta.IfIndex = some arpIf →
        arpIf.If.IfType = InterfaceType.SOFTWARE_LOOPBACK →
        arpIf.If.Name = "vxlanBVI" →
        cache.RetrieveNodeByLoopMacAddr e.Ae.PhysAddress = some macNode →
        cache.RetrieveNodeByLoopIPAddr (e.Ae.IPAddress ++ "/24") = some ipNode →
        (arpProcessEntry cache node st e).expected
            = st.expected.filter (fun n => n != ipNode.Name) ∧
        (macNode.Name ≠ ipNode.Name →
          ArpMsg.arpMismatch e.Ae.PhysAddress e.Ae.IPAddress macNode.Name ipNode.Name
            ∈ (arpProcessEntry cache node st e).reports)) ∧
    (arpScanNode cache nodeList node).reports.count (ArpMsg.missingArpEntry p)
        = if p ∈ (arpScanNode cache nodeList node).expected then 1 else 0 := by
  constructor
  · intro st e arpIf macNode ipNode hS hIf hT hN hM hI
    exact arpEntry_both_resolved cache node st e arpIf macNode ipNode hS hIf hT hN hM hI
  · unfold arpScanNode
    dsimp only
    rw [List.count_append, arpFold_count_missing, count_map_missing]
    simp only [List.count_nil, Nat.zero_add]
    exact count_nodup_mem _ p
      (arpFold_expected_nodup cache node node.NodeIPArp _ (goNameSet_nodup _))

/-- Closed instance of `C4_arp_peer_removal_and_missing_reports` at the
counterexample fixture, with all hypotheses discharged. -/
theorem C4_witness :
    (arpProcessEntry arpCacheC4 arpNodeA ⟨["B", "C"], [], 0⟩ arpEntryA).expected
        = (["B", "C"].filter (fun n => n != "C")) ∧
    ArpMsg.arpMismatch "aa:bb" "192.168.16.3" "B" "C"
      ∈ (arpProcessEntry arpCacheC4 arpNodeA ⟨["B", "C"], [], 0⟩ arpEntryA).reports ∧
    (arpScanNode arpCacheC4 arpCacheC4.nodes arpNodeA).reports.count
        (ArpMsg.missingArpEntry "B")
      = if "B" ∈ (arpScanNode arpCacheC4 arpCacheC4.nodes arpNodeA).expected
        then 1 else 0 := by
  have h := C4_arp_peer_removal_and_missing_reports arpCacheC4 arpCacheC4.nodes arpNodeA "B"
  have h1 := h.1 ⟨["B", "C"], [], 0⟩ arpEntryA arpIfA arpNodeB arpNodeC rfl (by decide)
    rfl rfl (by decide) (by decide)
  exact ⟨h1.1, h1.2 (by decide), h.2⟩

theorem append_slash24_suffix (ip : String) :
    ((ip ++ "/24").data.reverse.take 3) = ['4', '2', '/'] := by
  obtain ⟨l⟩ := ip
  show ((l ++ "/24".data).reverse.take 3) = _
  rw [List.reverse_append, List.take_left' (by rfl)]
  rfl

/-- **C10.**  The ARP validator queries the loopback-IP index with the
entry's IP suffixed by the fixed string `"/24"`; on a cache whose
loopback-IP index has no key ending in the characters `/24`, the lookup
fails, the bad-IP-address error is reported, and the expected-peer set is
left unchanged by the entry. -/
theorem C10_arp_ip_lookup_slash24
    (cache : VppCache) (node : Node) (st : ArpState) (e : NodeIPArpEntry)
    (arpIf : NodeInterface)
    (hS : e.Ae.Static = true)
    (hIf : lookupNat node.NodeInterfaces e.AeMeta.IfIndex = some arpIf)
    (hT : arpIf.If.IfType = InterfaceType.SOFTWARE_LOOPBACK)
    (hN : arpIf.If.Name = "vxlanBVI")
    (hKeys : ∀ kn ∈ cache.loopIPMap, (kn : String × Node).1.data.reverse.take 3 ≠ ['4', '2', '/']) :
    cache.RetrieveNodeByLoopIPAddr (e.Ae.IPAddress ++ "/24") = none ∧
    (arpProcessEntry cache node st e).expected = st.expected ∧
    ArpMsg.badIPAddress e.Ae.PhysAddress e.Ae.IPAddress
      ∈ (arpProcessEntry cache node st e).reports := by
  have hnone : cache.RetrieveNodeByLoopIPAddr (e.Ae.IPAddress ++ "/24") = none := by
    unfold VppCache.RetrieveNodeByLoopIPAddr lookupStr
    cases hf : cache.loopIPMap.find? (fun p => p.1 == (e.Ae.IPAddress ++ "/24")) with
    | none => rfl
    | some kn =>
        exfalso
        have hp := List.find?_some hf
        have hmem := List.mem_of_find?_eq_some hf
        have hk : kn.1 = e.Ae.IPAddress ++ "/24" := by simpa using hp
        exact hKeys kn hmem (by rw [hk]; exact append_slash24_suffix _)
  refine ⟨hnone, ?_, ?_⟩
  · unfold arpProcessEntry
    simp only [hS, hIf, hT, hN, hnone, bne_self_eq_false, Bool.or_self, Bool.not_true,
      Bool.false_eq_true, if_false]
    cases hm : cache.RetrieveNodeByLoopMacAddr e.Ae.PhysAddress <;> rfl
  · unfold arpProcessEntry
    simp only [hS, hIf, hT, hN, hnone, bne_self_eq_false, Bool.or_self, Bool.not_true,
      Bool.false_eq_true, if_false]
    cases hm : cache.RetrieveNodeByLoopMacAddr e.Ae.PhysAddress <;> simp

/-- Cache whose loopback-IP index is keyed with `/16` prefixes only. -/
def arpCacheC10 : VppCache :=
  { nodes := [arpNodeA, arpNodeB, arpNodeC],
    loopMacMap := [("aa:bb", arpNodeB)],
    loopIPMap := [("192.168.16.3/16", arpNodeC)],
    gigEIPMap := [], hostIPMap := [] }

/-- Closed instance of `C10_arp_ip_lookup_slash24` on a cache keyed with
`/16` prefixes. -/
theorem C10_witness :
    arpCacheC10.RetrieveNodeByLoopIPAddr ("192.168.16.3" ++ "/24") = none ∧
    (arpProcessEntry arpCacheC10 arpNodeA ⟨["B", "C"], [], 0⟩ arpEntryA).expected
        = ["B", "C"] ∧
    ArpMsg.badIPAddress "aa:bb" "192.168.16.3"
      ∈ (arpProcessEntry arpCacheC10 arpNodeA ⟨["B", "C"], [], 0⟩ arpEntryA).reports := by
  exact C10_arp_ip_lookup_slash24 arpCacheC10 arpNodeA ⟨["B", "C"], [], 0⟩ arpEntryA arpIfA
    rfl (by decide) rfl rfl (by decide)



/-! ## VXLAN Mesh Validator (`ValidateL2Connectivity`) -/

/-- Outcome of the bridge-domain location loop at the top of the per-node
body of `ValidateL2Connectivity`. -/
inductive BDSelect where
  | missing
  | duplicate
  | found (bd : NodeBridgeDomain)
  deriving DecidableEq

/-- The location loop's control flow: walk the bridge-domain list; on a
second `vxlanBD`-named element stop the node (`continue validateNodeBD`,
the duplicate case); otherwise remember whether one was seen. -/
def vxlanBDFlag : List NodeBridgeDomain → Bool → Option Bool
  | [], f => some f
  | bd :: rest, f =>
      if bd.Bd.Name == "vxlanBD" then
        if f then none else vxlanBDFlag rest true
      else vxlanBDFlag rest f

/-- The bridge domain whose metadata and member list the per-node body
subsequently reads.  The source stores `vxLanBD = &bdomain`, a pointer to
the `range` loop variable, and dereferences it only after the loop has
finished; under Go (pre-1.22) `range` semantics the loop variable then
holds the *last* element of `node.NodeBridgeDomains`, not the matched one.
`selectVxlanBD` reproduces this: with exactly one name match the selected
domain is the list's last element.  (The inner `missing` fallback is
unreachable: the flag is only ever set on a non-empty list.) -/
def selectVxlanBD (bds : List NodeBridgeDomain) : BDSelect :=
  match vxlanBDFlag bds false with
  | none => BDSelect.duplicate
  | some false => BDSelect.missing
  | some true =>
      match bds.getLast? with
      | some bd => BDSelect.found bd
      | none => BDSelect.missing

/-- State threaded through the member-interface loop: the valid-interface
counter `i`, the BVI flag, the unaccounted-node set (`nodeVxlanMap`), the
node's reports and the error counter. -/
structure L2State where
  i : Nat
  hasBviIfc : Bool
  nodeVxlanMap : List String
  reports : List L2Msg
  errCnt : Nat
  deriving DecidableEq

/-- `errCnt++` plus `AppendToNodeReport`, the source's ubiquitous error
idiom. -/
def addErr (st : L2State) (m : L2Msg) : L2State :=
  { st with reports := st.reports ++ [m], errCnt := st.errCnt + 1 }

/-- `ifIndex := bdName2Id[bdIfc.Name]`: the source inverts the bridge
domain's `BdID2Name` map and reads the inverse with Go zero-value
semantics (0 when the name is absent; on duplicate names the
last-inserted binding wins). -/
def bdIfIndex (bd : NodeBridgeDomain) (name : String) : Nat :=
  match (bd.BdMeta.BdID2Name.filter (fun p => p.2 == name)).getLast? with
  | some p => p.1
  | none => 0

/-- One iteration of the member-interface loop of
`ValidateL2Connectivity` (lines 185–307 of the source). -/
def l2ProcessMember (cache : VppCache) (node : Node) (bd : NodeBridgeDomain)
    (st : L2State) (bdIfc : BdInterface) : L2State :=
  let ifIndex := bdIfIndex bd bdIfc.Name
  match lookupNat node.NodeInterfaces ifIndex with
  | none => addErr st (L2Msg.invalidIfIndex ifIndex bdIfc.Name)
  | some nodeIfc =>
      if bdIfc.BVI then
        let st1 :=
          if st.hasBviIfc then
            addErr st (L2Msg.duplicateBVI bdIfc.Name ifIndex nodeIfc.If.Name)
          else st
        if nodeIfc.If.IfType != InterfaceType.SOFTWARE_LOOPBACK then
          addErr st1 (L2Msg.invalidBVIType bdIfc.Name ifIndex nodeIfc.If.Name)
        else
          let st2 := { st1 with hasBviIfc := true, i := st1.i + 1 }
          match cache.RetrieveNodeByLoopMacAddr nodeIfc.If.PhysAddress with
          | none =>
              addErr st2 (L2Msg.badMacIndex nodeIfc.If.PhysAddress bdIfc.Name ifIndex nodeIfc.If.Name)
          | some n =>
              { st2 with nodeVxlanMap := st2.nodeVxlanMap.filter (fun x => x != n.Name) }
      else
        if nodeIfc.If.IfType != InterfaceType.VXLAN_TUNNEL then
          addErr st (L2Msg.invalidBDIfType bdIfc.Name ifIndex nodeIfc.If.Name)
        else
          let st1 :=
            if nodeIfc.If.Vxlan.Vni != VppVNI then
              addErr st (L2Msg.badVNI nodeIfc.If.Name nodeIfc.IfMeta.VppInternalName
                nodeIfc.If.Vxlan.Vni VppVNI)
            else st
          match cache.RetrieveNodeByGigEIPAddr nodeIfc.If.Vxlan.SrcAddress with
          | none => addErr st1 (L2Msg.srcIPNodeNotFound nodeIfc.If.Vxlan.SrcAddress)
          | some srcIPNode =>
              if srcIPNode.Name != node.Name then
                addErr st1 (L2Msg.srcIPWrongNode nodeIfc.If.Name nodeIfc.If.Vxlan.SrcAddress node.Name)
              else
                match cache.RetrieveNodeByGigEIPAddr nodeIfc.If.Vxlan.DstAddress with
                | none =>
                    addErr st1 (L2Msg.dstIPNodeNotFound nodeIfc.If.Vxlan.DstAddress nodeIfc.If.Name)
                | some dstipNode =>
                    let matching := dstipNode.NodeInterfaces.any (fun kv =>
                      kv.2.If.IfType == nodeIfc.If.IfType &&
                      kv.2.If.Vxlan.DstAddress == nodeIfc.If.Vxlan.SrcAddress)
                    let st2 :=
                      if !matching then
                        addErr st1 (L2Msg.noMatchingTunnel dstipNode.Name nodeIfc.If.Name)
                      else st1
                    let st3 := { st2 with i := st2.i + 1 }
                    -- The source re-queries the GigE index with the very same
                    -- destination address it resolved above; the lookup is a
                    -- pure function of the cache, so it yields `dstipNode`
                    -- again and the error branch of the re-query is
                    -- unreachable here.
                    { st3 with nodeVxlanMap := st3.nodeVxlanMap.filter (fun x => x != dstipNode.Name) }

/-- The member scan of one node's selected bridge domain, including the
post-scan tunnel-count check (which only reports, never skips). -/
def l2NodeScan (cache : VppCache) (nodeList : List Node) (node : Node)
    (bd : NodeBridgeDomain) : L2State :=
  let st0 : L2State := ⟨0, false, goNameSet (nodeList.map (fun n => n.Name)), [], 0⟩
  let st := bd.Bd.Interfaces.foldl (l2ProcessMember cache node bd) st0
  if st.i != nodeList.length then
    addErr st (L2Msg.wrongNumIfs st.i nodeList.length)
  else st

/-- The per-node body of `ValidateL2Connectivity`: returns the node's final
state and whether the node was deleted from the cluster-wide `nodeMap`
(only a missing BVI or a non-empty unaccounted set prevent the
deletion). -/
def l2ValidateNode (cache : VppCache) (nodeList : List Node) (node : Node) :
    L2State × Bool :=
  match selectVxlanBD node.NodeBridgeDomains with
  | BDSelect.duplicate => (⟨0, false, [], [L2Msg.multipleVxlanBD], 1⟩, false)
  | BDSelect.missing => (⟨0, false, [], [L2Msg.noVxlanBD], 1⟩, false)
  | BDSelect.found bd =>
      let st := l2NodeScan cache nodeList node bd
      if !st.hasBviIfc then (addErr st L2Msg.missingBVI, false)
      else if st.nodeVxlanMap.length > 0 then
        ({ st with reports := st.reports ++ st.nodeVxlanMap.map (fun n => L2Msg.bdIfMissing n),
                   errCnt := st.errCnt + st.nodeVxlanMap.length }, false)
      else (st, true)

/-- The cluster-wide pass of `ValidateL2Connectivity`: run every node,
collect its reports under its name, delete fully validated nodes from the
`nodeMap` copy of the node-name set, and finally report every leftover
name as a node that failed Vxlan-BD validation.  (The trailing global
OK/error-count summary line is omitted; it is appended to the global
bucket and carries no per-node information.)  Returns the bucketed reports
together with the final `nodeMap`;
`l2ClusterStep` is the loop body. -/
def l2ClusterStep (cache : VppCache) (nodeList : List Node)
    (acc : List (String × L2Msg) × List String) (node : Node) :
    List (String × L2Msg) × List String :=
  let r := l2ValidateNode cache nodeList node
  (acc.1 ++ r.1.reports.map (fun m => (node.Name, m)),
   if r.2 then acc.2.filter (fun x => x != node.Name) else acc.2)

def ValidateL2Connectivity (cache : VppCache) : List (String × L2Msg) × List String :=
  let nodeList := cache.RetrieveAllNodes
  let nodeMap0 := goNameSet (nodeList.map (fun n => n.Name))
  let acc := nodeList.foldl (l2ClusterStep cache nodeList) ([], nodeMap0)
  (acc.1 ++ acc.2.map (fun n => (n, L2Msg.failedVxlanBD)), acc.2)


def c2BdA : NodeBridgeDomain :=
  { Bd := { Name := "vxlanBD", Interfaces := [⟨"loop0", true⟩] },
    BdMeta := { BdID2Name := [(1, "loop0")] } }

def c2BdB : NodeBridgeDomain :=
  { Bd := { Name := "otherBD", Interfaces := [⟨"memif1", false⟩] },
    BdMeta := { BdID2Name := [(7, "memif1")] } }


/-- C6 fixture: a two-node cluster in which node A's overlay BD carries a
BVI plus two duplicate tunnels to node B. -/
def c6LoopA : NodeInterface :=
  { If := { Name := "vxlanBVI", IfType := .SOFTWARE_LOOPBACK, PhysAddress := "aa",
            IPAddresses := [], Vxlan := ⟨"", "", 0⟩ },
    IfMeta := ⟨"loop0", 1⟩ }

def c6Tun1 : NodeInterface :=
  { If := { Name := "vxlan1", IfType := .VXLAN_TUNNEL, PhysAddress := "",
            IPAddresses := [], Vxlan := ⟨"10.0.0.1", "10.0.0.2", 10⟩ },
    IfMeta := ⟨"vxlan_tunnel0", 2⟩ }

def c6Tun2 : NodeInterface :=
  { If := { Name := "vxlan2", IfType := .VXLAN_TUNNEL, PhysAddress := "",
            IPAddresses := [], Vxlan := ⟨"10.0.0.1", "10.0.0.2", 10⟩ },
    IfMeta := ⟨"vxlan_tunnel1", 3⟩ }

def c6BdA : NodeBridgeDomain :=
  { Bd := { Name := "vxlanBD",
            Interfaces := [⟨"loop0", true⟩, ⟨"vxlan1", false⟩, ⟨"vxlan2", false⟩] },
    BdMeta := { BdID2Name := [(1, "loop0"), (2, "vxlan1"), (3, "vxlan2")] } }

def c6NodeA : Node :=
  { Name := "A", NodeInterfaces := [(1, c6LoopA), (2, c6Tun1), (3, c6Tun2)],
    NodeBridgeDomains := [c6BdA], NodeIPArp := [], NodeL2Fibs := [], PodMap := [] }

def c6TunB : NodeInterface :=
  { If := { Name := "vxlan9", IfType := .VXLAN_TUNNEL, PhysAddress := "",
            IPAddresses := [], Vxlan := ⟨"10.0.0.2", "10.0.0.1", 10⟩ },
    IfMeta := ⟨"vxlan_tunnel0", 2⟩ }

def c6NodeB : Node :=
  { Name := "B", NodeInterfaces := [(2, c6TunB)], NodeBridgeDomains := [],
    NodeIPArp := [], NodeL2Fibs := [], PodMap := [] }

def c6Cache : VppCache :=
  { nodes := [c6NodeA, c6NodeB],
    loopMacMap := [("aa", c6NodeA)],
    loopIPMap := [],
    gigEIPMap := [("10.0.0.1", c6NodeA), ("10.0.0.2", c6NodeB)],
    hostIPMap := [] }



theorem l2ValidateNode_removed_iff (cache : VppCache) (nodeList : List Node) (node : Node) :
    (l2ValidateNode cache nodeList node).2 = true ↔
      ∃ bd, selectVxlanBD node.NodeBridgeDomains = BDSelect.found bd ∧
        (l2NodeScan cache nodeList node bd).hasBviIfc = true ∧
        (l2NodeScan cache nodeList node bd).nodeVxlanMap = [] := by
  unfold l2ValidateNode
  cases hsel : selectVxlanBD node.NodeBridgeDomains with
  | duplicate => simp
  | missing => simp
  | found bd =>
      dsimp only
      by_cases hb : (l2NodeScan cache nodeList node bd).hasBviIfc
      · by_cases hm : (l2NodeScan cache nodeList node bd).nodeVxlanMap = []
        · simp [hb, hm]
        · have hlen : 0 < (l2NodeScan cache nodeList node bd).nodeVxlanMap.length :=
            List.length_pos.mpr hm
          simp [hb, hm, hlen]
      · simp [hb]

theorem l2Member_count_failed (cache : VppCache) (node : Node) (bd : NodeBridgeDomain)
    (st : L2State) (m : BdInterface) :
    ((l2ProcessMember cache node bd st m).reports).count L2Msg.failedVxlanBD
      = st.reports.count L2Msg.failedVxlanBD := by
  unfold l2ProcessMember addErr
  dsimp only
  repeat' split
  all_goals simp [List.count_append, List.count_cons, List.count_nil]

theorem l2Fold_count_failed (cache : VppCache) (node : Node) (bd : NodeBridgeDomain)
    (l : List BdInterface) (st : L2State) :
    ((l.foldl (l2ProcessMember cache node bd) st).reports).count L2Msg.failedVxlanBD
      = st.reports.count L2Msg.failedVxlanBD := by
  induction l generalizing st with
  | nil => rfl
  | cons b l ih => rw [List.foldl_cons, ih, l2Member_count_failed]

theorem count_failed_map_bdIfMissing (l : List String) :
    (l.map (fun n => L2Msg.bdIfMissing n)).count L2Msg.failedVxlanBD = 0 := by
  induction l with
  | nil => rfl
  | cons a l ih => simp [List.count_cons, ih]

theorem l2ValidateNode_count_failed (cache : VppCache) (nodeList : List Node) (node : Node) :
    ((l2ValidateNode cache nodeList node).1.reports).count L2Msg.failedVxlanBD = 0 := by
  unfold l2ValidateNode
  cases hsel : selectVxlanBD node.NodeBridgeDomains with
  | duplicate => rfl
  | missing => rfl
  | found bd =>
      dsimp only
      have hscan : ((l2NodeScan cache nodeList node bd).reports).count L2Msg.failedVxlanBD = 0 := by
        unfold l2NodeScan
        dsimp only
        split
        · unfold addErr
          dsimp only
          rw [List.count_append, l2Fold_count_failed]
          simp
        · rw [l2Fold_count_failed]
          rfl
      split
      · unfold addErr
        dsimp only
        rw [List.count_append, hscan]
        simp
      · split
        · dsimp only
          rw [List.count_append, hscan, count_failed_map_bdIfMissing]
        · exact hscan

theorem count_pair_map_msg (nm n : String) (l : List L2Msg) (x : L2Msg) :
    (l.map (fun m => (nm, m))).count (n, x)
      = if nm = n then l.count x else 0 := by
  by_cases h : nm = n
  · subst h
    simp only [if_pos rfl]
    induction l with
    | nil => rfl
    | cons a l ih => simp [List.count_cons, ih, Prod.ext_iff]
  · simp only [if_neg h]
    induction l with
    | nil => rfl
    | cons a l ih => simp [List.count_cons, ih, Prod.ext_iff, h]

theorem count_pair_map_failed (l : List String) (n : String) :
    (l.map (fun p => (p, L2Msg.failedVxlanBD))).count (n, L2Msg.failedVxlanBD)
      = l.count n := by
  induction l with
  | nil => rfl
  | cons a l ih => simp [List.count_cons, ih, Prod.ext_iff]

theorem l2ClusterStep_count (cache : VppCache) (nodeList : List Node)
    (acc : List (String × L2Msg) × List String) (node : Node) (n : String) :
    ((l2ClusterStep cache nodeList acc node).1).count (n, L2Msg.failedVxlanBD)
      = acc.1.count (n, L2Msg.failedVxlanBD) := by
  unfold l2ClusterStep
  dsimp only
  rw [List.count_append, count_pair_map_msg]
  by_cases h : node.Name = n
  · simp [h, l2ValidateNode_count_failed]
  · simp [h]

theorem l2ClusterStep_nodup (cache : VppCache) (nodeList : List Node)
    (acc : List (String × L2Msg) × List String) (node : Node) (h : acc.2.Nodup) :
    ((l2ClusterStep cache nodeList acc node).2).Nodup := by
  unfold l2ClusterStep
  dsimp only
  split
  · exact h.filter _
  · exact h

theorem l2ClusterFold_inv (cache : VppCache) (nodeList : List Node) (n : String)
    (nodes : List Node) :
    ∀ acc : List (String × L2Msg) × List String,
      acc.1.count (n, L2Msg.failedVxlanBD) = 0 → acc.2.Nodup →
      ((nodes.foldl (l2ClusterStep cache nodeList) acc).1.count (n, L2Msg.failedVxlanBD) = 0 ∧
       (nodes.foldl (l2ClusterStep cache nodeList) acc).2.Nodup) := by
  induction nodes with
  | nil => intro acc h1 h2; exact ⟨h1, h2⟩
  | cons node nodes ih =>
      intro acc h1 h2
      rw [List.foldl_cons]
      exact ih _ (by rw [l2ClusterStep_count, h1]) (l2ClusterStep_nodup _ _ _ _ h2)


/-- **C2 (code bug).**  A node with exactly one bridge domain named
`vxlanBD` (the first of its two domains).  The source stores
`vxLanBD = &bdomain` — a pointer into the `range` loop variable — and reads
`vxLanBD.BdMeta` / `vxLanBD.Bd.Interfaces` only after the loop, so the
bridge domain actually read is the *last* list element (`c2BdB`), not the
`vxlanBD`-named one; the zero-match (missing, skip) and multiple-match
(duplicate, skip) behaviours are as the claim states. -/
theorem C2_wrong_bridge_domain_read :
    ((([c2BdA, c2BdB] : List NodeBridgeDomain).filter
        (fun bd => bd.Bd.Name == "vxlanBD")).length = 1) ∧
    selectVxlanBD [c2BdA, c2BdB] = BDSelect.found c2BdB ∧
    c2BdB.Bd.Name ≠ "vxlanBD" ∧
    selectVxlanBD [c2BdB] = BDSelect.missing ∧
    selectVxlanBD [c2BdA, c2BdA, c2BdB] = BDSelect.duplicate := by
  decide

/-- **C6, counterexample.**  In a two-node cluster, node A's overlay bridge
domain holds its BVI plus two (duplicate) valid tunnels to node B: the
member counter reaches 3 ≠ 2 = the node count — yet A is still deleted
from the cluster-wide unvalidated-node set, because only the BVI flag and
the unaccounted-peer set gate the deletion; the wrong-tunnel-count check
merely reports. -/
theorem C6_counterexample :
    (l2ValidateNode c6Cache c6Cache.nodes c6NodeA).2 = true ∧
    (l2NodeScan c6Cache c6Cache.nodes c6NodeA c6BdA).i = 3 ∧
    c6Cache.nodes.length = 2 ∧
    L2Msg.wrongNumIfs 3 2 ∈ (l2ValidateNode c6Cache c6Cache.nodes c6NodeA).1.reports := by
  decide

/-- **C6 (amended).**  A node is removed from the cluster-wide
unvalidated-node set exactly when its overlay bridge domain was located
uniquely, its BVI flag is set, and its unaccounted-peer set is empty — a
wrong tunnel count is reported but does not prevent the removal — and
every name left in that set at the end yields exactly one
failed-end-to-end report for that node. -/
theorem C6_node_removed_iff_and_leftover_reported (cache : VppCache) (n : String) :
    (∀ (nodeList : List Node) (node : Node),
        (l2ValidateNode cache nodeList node).2 = true ↔
          ∃ bd, selectVxlanBD node.NodeBridgeDomains = BDSelect.found bd ∧
            (l2NodeScan cache nodeList node bd).hasBviIfc = true ∧
            (l2NodeScan cache nodeList node bd).nodeVxlanMap = []) ∧
    (ValidateL2Connectivity cache).1.count (n, L2Msg.failedVxlanBD)
        = if n ∈ (ValidateL2Connectivity cache).2 then 1 else 0 := by
  constructor
  · intro nodeList node
    exact l2ValidateNode_removed_iff cache nodeList node
  · unfold ValidateL2Connectivity
    dsimp only
    have hinv := l2ClusterFold_inv cache cache.RetrieveAllNodes n cache.RetrieveAllNodes
      ([], goNameSet (cache.RetrieveAllNodes.map (fun nd => nd.Name))) rfl (goNameSet_nodup _)
    rw [List.count_append, hinv.1, count_pair_map_failed]
    simpa using count_nodup_mem _ n hinv.2



/-! ## L2 FIB Validator (`ValidateL2FibEntries`) -/

/-- `getVxlanBD` from the source: the index of the first bridge domain
named `vxlanBD` in the node's list, or an error when there is none. -/
def getVxlanBD (node : Node) : Option Nat :=
  node.NodeBridgeDomains.findIdx? (fun bd => bd.Bd.Name == "vxlanBD")

/-- Modelled from the spec: `datastore.GetNodeLoopIFInfo` is not among the
provided sources; per the spec it looks up "the local BVI (loopback)
interface" of a node — the node's interface of software-loopback type,
an error when there is none. -/
def GetNodeLoopIFInfo (node : Node) : Option NodeInterface :=
  (node.NodeInterfaces.find?
    (fun kv => kv.2.If.IfType == InterfaceType.SOFTWARE_LOOPBACK)).map (fun kv => kv.2)

/-- State threaded through the per-node FIB scan: the has-own-BVI-entry
flag, the unaccounted-peer set (`nodeFibMap`, node names), the unaccounted
static-entry set (`fibNodeMap`, entry keys), reports, and the error
counter. -/
structure FibState where
  fibHasLoopIF : Bool
  nodeFibMap : List String
  fibNodeMap : List String
  reports : List FibMsg
  errCnt : Nat
  deriving DecidableEq

/-- `errCnt++` plus a report, as in the source. -/
def addFibErr (st : FibState) (m : FibMsg) : FibState :=
  { st with reports := st.reports ++ [m], errCnt := st.errCnt + 1 }

/-- The qualification test both loops of `ValidateL2FibEntries` apply: the
entry's bridge-domain id equals the located `vxlanBD` index and the entry
is statically configured. -/
def fibQualifies (vx : Nat) (fe : NodeL2FibEntry) : Bool :=
  fe.FeMeta.BridgeDomainID == vx && fe.Fe.StaticConfig

/-- The first loop of the per-node body: build `fibNodeMap`, the
unaccounted-entry set, from the keys of all qualifying entries. -/
def fibInitEntrySet (vx : Nat) (node : Node) : List String :=
  node.NodeL2Fibs.foldl
    (fun acc kv =>
      if kv.2.FeMeta.BridgeDomainID != vx then acc
      else if !kv.2.Fe.StaticConfig then acc
      else acc ++ [kv.1]) []

/-- One iteration of the main entry loop of `ValidateL2FibEntries`
(lines 386–486 of the source). -/
def fibProcessEntry (cache : VppCache) (node : Node) (vx : Nat)
    (st : FibState) (kv : String × NodeL2FibEntry) : FibState :=
  if kv.2.FeMeta.BridgeDomainID != vx then st
  else if !kv.2.Fe.StaticConfig then st
  else if kv.2.Fe.BridgedVirtualInterface then
    let st1 :=
      match GetNodeLoopIFInfo node with
      | none => addFibErr st (FibMsg.fibBviNoLoop kv.1 node.Name)
      | some loopIf =>
          if kv.2.Fe.PhysAddress != loopIf.If.PhysAddress then
            addFibErr st (FibMsg.fibBviBadMac kv.1 kv.2.Fe.PhysAddress loopIf.If.PhysAddress)
          else st
    let st2 :=
      match cache.RetrieveNodeByLoopMacAddr kv.2.Fe.PhysAddress with
      | some _ => { st1 with fibHasLoopIF := true }
      | none => addFibErr st1 (FibMsg.fibMacIndexErr kv.2.Fe.PhysAddress)
    { st2 with fibNodeMap := st2.fibNodeMap.filter (fun x => x != kv.1),
               nodeFibMap := st2.nodeFibMap.filter (fun x => x != node.Name) }
  else
    match lookupNat node.NodeInterfaces kv.2.FeMeta.OutgoingIfIndex with
    | none =>
        addFibErr st (FibMsg.fibOutIfMissing kv.2.Fe.PhysAddress kv.2.Fe.OutgoingIfName
          kv.2.FeMeta.OutgoingIfIndex)
    | some intf =>
        match cache.RetrieveNodeByGigEIPAddr intf.If.Vxlan.DstAddress with
        | none => addFibErr st (FibMsg.fibRemoteNodeNotFound kv.1 intf.If.Vxlan.DstAddress)
        | some macNode =>
            match GetNodeLoopIFInfo macNode with
            | none =>
                addFibErr
                  { st with fibNodeMap := st.fibNodeMap.filter (fun x => x != kv.1),
                            nodeFibMap := st.nodeFibMap.filter (fun x => x != macNode.Name) }
                  (FibMsg.fibRemoteNoLoop kv.2.Fe.PhysAddress macNode.Name)
            | some remoteLoopIF =>
                let st1 :=
                  if remoteLoopIF.If.PhysAddress != kv.2.Fe.PhysAddress then
                    addFibErr st (FibMsg.fibRemoteBadMac kv.1 kv.2.Fe.PhysAddress
                      remoteLoopIF.If.PhysAddress)
                  else st
                let st2 :=
                  match cache.RetrieveNodeByLoopMacAddr kv.2.Fe.PhysAddress with
                  | none => addFibErr st1 (FibMsg.fibMacIndexErr kv.2.Fe.PhysAddress)
                  | some _ => st1
                { st2 with fibNodeMap := st2.fibNodeMap.filter (fun x => x != kv.1),
                           nodeFibMap := st2.nodeFibMap.filter (fun x => x != macNode.Name) }

theorem fibProcessEntry_skip (cache : VppCache) (node : Node) (vx : Nat)
    (st : FibState) (kv : String × NodeL2FibEntry)
    (h : fibQualifies vx kv.2 = false) :
    fibProcessEntry cache node vx st kv = st := by
  unfold fibQualifies at h
  by_cases hid : (kv.2.FeMeta.BridgeDomainID == vx) = true
  · have hs : kv.2.Fe.StaticConfig = false := by
      cases hst : kv.2.Fe.StaticConfig
      · rfl
      · rw [hid, hst] at h; exact absurd h (by simp)
    unfold fibProcessEntry
    simp [bne, hid, hs]
  · have hid0 : (kv.2.FeMeta.BridgeDomainID == vx) = false := by
      simpa using hid
    unfold fibProcessEntry
    simp [bne, hid0]

theorem fibFold_filter (cache : VppCache) (node : Node) (vx : Nat)
    (l : List (String × NodeL2FibEntry)) (st : FibState) :
    l.foldl (fibProcessEntry cache node vx) st
      = (l.filter (fun kv => fibQualifies vx kv.2)).foldl (fibProcessEntry cache node vx) st := by
  induction l generalizing st with
  | nil => rfl
  | cons kv l ih =>
      by_cases h : fibQualifies vx kv.2 = true
      · simp [List.filter_cons, h, List.foldl_cons, ih]
      · have h0 : fibQualifies vx kv.2 = false := by simpa using h
        simp [List.filter_cons, h0, List.foldl_cons, ih, fibProcessEntry_skip cache node vx st kv h0]

theorem fibInitAux (vx : Nat) (l : List (String × NodeL2FibEntry)) :
    ∀ acc, l.foldl (fun acc kv =>
        if kv.2.FeMeta.BridgeDomainID != vx then acc
        else if !kv.2.Fe.StaticConfig then acc
        else acc ++ [kv.1]) acc
      = acc ++ (l.filter (fun kv => fibQualifies vx kv.2)).map (fun kv => kv.1) := by
  induction l with
  | nil => intro acc; simp
  | cons kv l ih =>
      intro acc
      simp only [List.foldl_cons, List.filter_cons]
      by_cases hid : (kv.2.FeMeta.BridgeDomainID == vx) = true
      · by_cases hs : kv.2.Fe.StaticConfig = true
        · have hq : fibQualifies vx kv.2 = true := by simp [fibQualifies, hid, hs]
          rw [if_neg (by simp [bne, hid] : ¬((kv.2.FeMeta.BridgeDomainID != vx) = true)),
            if_neg (by simp [hs] : ¬((!kv.2.Fe.StaticConfig) = true)),
            ih, if_pos hq, List.map_cons]
          simp
        · have hs0 : kv.2.Fe.StaticConfig = false := by simpa using hs
          have hq : ¬(fibQualifies vx kv.2 = true) := by simp [fibQualifies, hs0]
          rw [if_neg (by simp [bne, hid] : ¬((kv.2.FeMeta.BridgeDomainID != vx) = true)),
            if_pos (by simp [hs0] : (!kv.2.Fe.StaticConfig) = true),
            ih, if_neg hq]
      · have hid0 : (kv.2.FeMeta.BridgeDomainID == vx) = false := by simpa using hid
        have hq : ¬(fibQualifies vx kv.2 = true) := by simp [fibQualifies, hid0]
        rw [if_pos (by simp [bne, hid0] : (kv.2.FeMeta.BridgeDomainID != vx) = true),
          ih, if_neg hq]

/-- **C3.**  With `vx` the index of the node's overlay bridge domain as
located by name, the unaccounted-entry set is built from exactly the
qualifying entry keys (bridge-domain id equal to `vx` and statically
configured), and the whole entry loop is equal to the entry loop run on
just the qualifying entries — dynamic entries and entries of other bridge
domains contribute nothing: no report, no set membership, no state
change. -/
theorem C3_fib_qualifying_entries (cache : VppCache) (node : Node) (vx : Nat)
    (st : FibState) (_hvx : getVxlanBD node = some vx) :
    fibInitEntrySet vx node
        = (node.NodeL2Fibs.filter (fun kv => fibQualifies vx kv.2)).map (fun kv => kv.1) ∧
    node.NodeL2Fibs.foldl (fibProcessEntry cache node vx) st
        = (node.NodeL2Fibs.filter (fun kv => fibQualifies vx kv.2)).foldl
            (fibProcessEntry cache node vx) st := by
  constructor
  · unfold fibInitEntrySet
    simpa using fibInitAux vx node.NodeL2Fibs []
  · exact fibFold_filter cache node vx node.NodeL2Fibs st

/-- C3 fixture: a node with one `vxlanBD` bridge domain (index 0) and three
FIB entries — one qualifying, one dynamic, one in another bridge
domain. -/
def fibEntryQ : NodeL2FibEntry :=
  { Fe := { PhysAddress := "aa", BridgedVirtualInterface := true, StaticConfig := true,
            OutgoingIfName := "loop0" },
    FeMeta := { BridgeDomainID := 0, OutgoingIfIndex := 1 } }

def fibEntryDyn : NodeL2FibEntry :=
  { Fe := { PhysAddress := "bb", BridgedVirtualInterface := false, StaticConfig := false,
            OutgoingIfName := "vxlan1" },
    FeMeta := { BridgeDomainID := 0, OutgoingIfIndex := 2 } }

def fibEntryOther : NodeL2FibEntry :=
  { Fe := { PhysAddress := "cc", BridgedVirtualInterface := false, StaticConfig := true,
            OutgoingIfName := "vxlan2" },
    FeMeta := { BridgeDomainID := 5, OutgoingIfIndex := 3 } }

def fibNodeC3 : Node :=
  { Name := "D", NodeInterfaces := [],
    NodeBridgeDomains := [⟨⟨"vxlanBD", []⟩, ⟨[]⟩⟩],
    NodeIPArp := [],
    NodeL2Fibs := [("k1", fibEntryQ), ("k2", fibEntryDyn), ("k3", fibEntryOther)],
    PodMap := [] }

def fibCacheC3 : VppCache :=
  { nodes := [fibNodeC3], loopMacMap := [], loopIPMap := [], gigEIPMap := [], hostIPMap := [] }

/-- Closed instance of `C3_fib_qualifying_entries` at the fixture. -/
theorem C3_witness :
    fibInitEntrySet 0 fibNodeC3
        = (fibNodeC3.NodeL2Fibs.filter (fun kv => fibQualifies 0 kv.2)).map (fun kv => kv.1) ∧
    fibNodeC3.NodeL2Fibs.foldl (fibProcessEntry fibCacheC3 fibNodeC3 0) ⟨false, [], [], [], 0⟩
        = (fibNodeC3.NodeL2Fibs.filter (fun kv => fibQualifies 0 kv.2)).foldl
            (fibProcessEntry fibCacheC3 fibNodeC3 0) ⟨false, [], [], [], 0⟩ :=
  C3_fib_qualifying_entries fibCacheC3 fibNodeC3 0 ⟨false, [], [], [], 0⟩ (by decide)



/-! ## Pod Info Cross-Validator (`ValidatePodInfo`) -/

/-- State threaded through the pod loop: the pod tracking set (`podMap`)
and the bucketed reports. -/
structure PodInfoState where
  podMap : List String
  reports : List (String × PodMsg)
  deriving DecidableEq

/-- The tail of the per-pod body after the pod-map identity check passed
(lines 589–621): resolve the node's K8s record, count the address entries
matching the pod's host IP (type 3) and the node's name (type 1), and
delete the pod from the tracking set only when exactly two matched. -/
def podInfoCheckNode (k8s : K8sCache) (node : Node) (pod : Pod)
    (st : PodInfoState) : PodInfoState :=
  match k8s.RetrieveK8sNode node.Name with
  | none =>
      { st with reports := st.reports ++ [(node.Name, PodMsg.k8sNodeMissing node.Name)] }
  | some k8snode =>
      let r := k8snode.Addresses.foldl
        (fun (acc : Nat × List (String × PodMsg)) adr =>
          if adr.AddrType == 3 then
            if adr.Address != pod.HostIPAddress then
              (acc.1, acc.2 ++ [(node.Name, PodMsg.podHostIPMismatch pod.HostIPAddress adr.Address)])
            else (acc.1 + 1, acc.2)
          else if adr.AddrType == 1 then
            if adr.Address != node.Name then
              (acc.1, acc.2 ++ [(node.Name, PodMsg.podHostNameMismatch adr.Address node.Name)])
            else (acc.1 + 1, acc.2)
          else acc)
        (0, [])
      let st1 := { st with reports := st.reports ++ r.2 }
      if r.1 != 2 then st1
      else { st1 with podMap := st1.podMap.filter (fun x => x != pod.Name) }

/-- One iteration of the pod loop of `ValidatePodInfo` (lines 567–622):
resolve the pod's host IP to a node; require the node's pod map to hold an
entry under the pod's name; `pod != podPtr` in the source compares the two
`*Pod` pointers — object identity, modelled by the `ID` field — and on any
failure the pod is skipped with a report, its name left in the tracking
set. -/
def podInfoStep (vpp : VppCache) (k8s : K8sCache) (st : PodInfoState) (pod : Pod) :
    PodInfoState :=
  match vpp.RetrieveNodeByHostIPAddr pod.HostIPAddress with
  | none =>
      { st with reports := st.reports ++
          [(GlobalMsg, PodMsg.podNodeNotFound pod.Name pod.HostIPAddress)] }
  | some node =>
      match lookupStr node.PodMap pod.Name with
      | none =>
          { st with reports := st.reports ++
              [(node.Name, PodMsg.podMapEntryMissing pod.Name node.Name)] }
      | some podPtr =>
          if podPtr.ID != pod.ID then
            { st with reports := st.reports ++
                [(node.Name, PodMsg.podMapPodMismatch podPtr.Name pod.Name)] }
          else podInfoCheckNode k8s node pod st

/-- **C7.**  For every pod whose host IP resolves to a node: an absent
pod-map entry or an entry that is a different object (different pointer
`ID`, even if structurally equal) yields a report and a skip that leaves
the tracking set untouched; processing continues past the check exactly
when the entry is the identical object. -/
theorem C7_pod_identity_check (vpp : VppCache) (k8s : K8sCache)
    (st : PodInfoState) (pod : Pod) (node : Node)
    (hres : vpp.RetrieveNodeByHostIPAddr pod.HostIPAddress = some node) :
    (lookupStr node.PodMap pod.Name = none →
      podInfoStep vpp k8s st pod
        = { st with reports := st.reports ++
              [(node.Name, PodMsg.podMapEntryMissing pod.Name node.Name)] }) ∧
    (∀ podPtr : Pod, lookupStr node.PodMap pod.Name = some podPtr → podPtr.ID ≠ pod.ID →
      podInfoStep vpp k8s st pod
        = { st with reports := st.reports ++
              [(node.Name, PodMsg.podMapPodMismatch podPtr.Name pod.Name)] }) ∧
    (∀ podPtr : Pod, lookupStr node.PodMap pod.Name = some podPtr → podPtr.ID = pod.ID →
      podInfoStep vpp k8s st pod = podInfoCheckNode k8s node pod st) := by
  refine ⟨?_, ?_, ?_⟩
  · intro hmiss
    unfold podInfoStep
    rw [hres]
    dsimp only
    rw [hmiss]
  · intro podPtr hsome hne
    unfold podInfoStep
    rw [hres]
    dsimp only
    rw [hsome]
    dsimp only
    rw [if_pos (by simpa using hne)]
  · intro podPtr hsome heq
    unfold podInfoStep
    rw [hres]
    dsimp only
    rw [hsome]
    dsimp only
    rw [if_neg (by simp [heq])]

/-- C7 fixtures: a pod shared by identity with its node's pod map
(`podN7`), and a second setup in which the node's pod map holds a
structurally equal but distinct copy (different `ID`). -/
def podP7 : Pod := ⟨7, "p7", "10.9.9.9", "10.1.1.2", "", "", "", 0⟩

def podP7copy : Pod := ⟨8, "p7", "10.9.9.9", "10.1.1.2", "", "", "", 0⟩

def podN7 : Node := ⟨"N7", [], [], [], [], [("p7", podP7)]⟩

def podN7copy : Node := ⟨"N7", [], [], [], [], [("p7", podP7copy)]⟩

def podVpp7 : VppCache := ⟨[podN7], [], [], [], [("10.9.9.9", podN7)]⟩

def podVpp7copy : VppCache := ⟨[podN7copy], [], [], [], [("10.9.9.9", podN7copy)]⟩

def podK8s7 : K8sCache :=
  ⟨[⟨"N7", "10.1.0.0/24", [⟨3, "10.9.9.9"⟩, ⟨1, "N7"⟩]⟩], [podP7]⟩

/-- Closed instance of `C7_pod_identity_check`: the shared pod proceeds to
the K8s-node phase; the structurally equal copy is reported and skipped
with the pod still tracked. -/
theorem C7_witness :
    podInfoStep podVpp7 podK8s7 ⟨["p7"], []⟩ podP7
        = podInfoCheckNode podK8s7 podN7 podP7 ⟨["p7"], []⟩ ∧
    podInfoStep podVpp7copy podK8s7 ⟨["p7"], []⟩ podP7
        = { podMap := ["p7"], reports := [("N7", PodMsg.podMapPodMismatch "p7" "p7")] } := by
  constructor
  · exact (C7_pod_identity_check podVpp7 podK8s7 ⟨["p7"], []⟩ podP7 podN7
      (by decide)).2.2 podP7 (by decide) rfl
  · exact (C7_pod_identity_check podVpp7copy podK8s7 ⟨["p7"], []⟩ podP7 podN7copy
      (by decide)).2.1 podP7copy (by decide) (by decide)



/-! ## Pod-to-Tap-Interface Binder (`ValidateTapToPod`) -/

/-- Accumulator of the tap scan: the pod tracking map and the pod record
(whose binding fields the source mutates in place). -/
structure TapAcc where
  podMap : List String
  pod : Pod
  deriving DecidableEq

/-- The match test the source applies to one IP/prefix entry of a tap
interface: mask the pod's IP and the entry's address part with the bitmask
derived from the Pod CIDR prefix length and compare.  (`strings.Split`
never returns an empty slice, so `ipAddr[0]` is total.) -/
def tapEntryMatches (bitmask : Nat) (podIPStr ip : String) : Bool :=
  (ip2uint32 podIPStr &&& bitmask) == (ip2uint32 ((goSplit ip "/").headD "") &&& bitmask)

/-- Innermost loop body of `ValidateTapToPod`: one IP/prefix entry of a
tap interface.  On a match the source writes the pod's four binding fields
and deletes the pod from the tracking map (there is no `break`, so a later
match overwrites an earlier one). -/
def tapMatchStep (bitmask : Nat) (intf : NodeInterface) (acc : TapAcc) (ip : String) : TapAcc :=
  if (ip2uint32 acc.pod.IPAddress &&& bitmask)
      == (ip2uint32 ((goSplit ip "/").headD "") &&& bitmask) then
    { podMap := acc.podMap.filter (fun x => x != acc.pod.Name),
      pod := { acc.pod with
                 VppIfIPAddr := ip,
                 VppIfInternalName := intf.IfMeta.VppInternalName,
                 VppIfName := intf.If.Name,
                 VppSwIfIdx := intf.IfMeta.SwIfIndex } }
  else acc

/-- Middle loop body: an interface is scanned only when its VPP internal
name contains `"tap"`. -/
def tapIntfStep (bitmask : Nat) (acc : TapAcc) (kv : Nat × NodeInterface) : TapAcc :=
  if goContains kv.2.IfMeta.VppInternalName "tap" then
    kv.2.If.IPAddresses.foldl (tapMatchStep bitmask kv.2) acc
  else acc

/-- The interface scan of `ValidateTapToPod` over a node (lines 673–688). -/
def tapScanIfs (bitmask : Nat) (vppNode : Node) (acc : TapAcc) : TapAcc :=
  vppNode.NodeInterfaces.foldl (tapIntfStep bitmask) acc

/-- Whether some tap interface of the node carries an IP/prefix entry
matching the pod's IP under the bitmask. -/
def nodeHasTapMatch (bitmask : Nat) (node : Node) (podIPStr : String) : Bool :=
  node.NodeInterfaces.any (fun kv =>
    goContains kv.2.IfMeta.VppInternalName "tap" &&
    kv.2.If.IPAddresses.any (fun ip => tapEntryMatches bitmask podIPStr ip))

/-- One iteration of the pod loop of `ValidateTapToPod` (lines 643–689).
Returns `none` when the Go code panics: `str[1]` is an out-of-range index
whenever the K8s node's Pod CIDR contains no `/`.  Otherwise returns the
tracking map, the binder's reports, and the (possibly re-bound) pod. -/
def tapStepPod (vpp : VppCache) (k8s : K8sCache) (podMap : List String)
    (reports : List TapMsg) (pod : Pod) :
    Option (List String × List TapMsg × Pod) :=
  if pod.IPAddress == pod.HostIPAddress then
    some (podMap.filter (fun x => x != pod.Name), reports, pod)
  else
    match vpp.RetrieveNodeByHostIPAddr pod.HostIPAddress with
    | none => some (podMap, reports ++ [TapMsg.hostIPIndexErr pod.HostIPAddress], pod)
    | some vppNode =>
        match k8s.RetrieveK8sNode vppNode.Name with
        | none => some (podMap, reports ++ [TapMsg.k8sNodeIndexErr vppNode.Name], pod)
        | some k8sNode =>
            match (goSplit k8sNode.Pod_CIDR "/").get? 1 with
            | none => none
            | some maskStr =>
                let av := goAtoi maskStr
                let reports1 :=
                  if !av.2 then reports ++ [TapMsg.invalidPodCIDR k8sNode.Pod_CIDR]
                  else reports
                let acc := tapScanIfs (maskLength2Mask av.1) vppNode ⟨podMap, pod⟩
                some (acc.podMap, reports1, acc.pod)

theorem filter_ne_idem (l : List String) (n : String) :
    (l.filter (fun x => x != n)).filter (fun x => x != n)
      = l.filter (fun x => x != n) := by
  rw [List.filter_filter]
  simp

theorem tapMatchStep_char (bitmask : Nat) (intf : NodeInterface) (acc : TapAcc) (ip : String) :
    (tapMatchStep bitmask intf acc ip).podMap
      = (if tapEntryMatches bitmask acc.pod.IPAddress ip = true
         then acc.podMap.filter (fun x => x != acc.pod.Name) else acc.podMap) ∧
    (tapMatchStep bitmask intf acc ip).pod.IPAddress = acc.pod.IPAddress ∧
    (tapMatchStep bitmask intf acc ip).pod.Name = acc.pod.Name := by
  unfold tapMatchStep tapEntryMatches
  split <;> rename_i h <;> simp_all

theorem tapIPFold_char (bitmask : Nat) (intf : NodeInterface) (ips : List String) :
    ∀ acc : TapAcc,
      ((ips.foldl (tapMatchStep bitmask intf) acc).podMap
        = if ips.any (fun ip => tapEntryMatches bitmask acc.pod.IPAddress ip) = true
          then acc.podMap.filter (fun x => x != acc.pod.Name)
          else acc.podMap) ∧
      (ips.foldl (tapMatchStep bitmask intf) acc).pod.IPAddress = acc.pod.IPAddress ∧
      (ips.foldl (tapMatchStep bitmask intf) acc).pod.Name = acc.pod.Name := by
  induction ips with
  | nil => intro acc; simp
  | cons ip ips ih =>
      intro acc
      obtain ⟨s1, s2, s3⟩ := tapMatchStep_char bitmask intf acc ip
      obtain ⟨f1, f2, f3⟩ := ih (tapMatchStep bitmask intf acc ip)
      simp only [List.foldl_cons, List.any_cons]
      refine ⟨?_, by rw [f2, s2], by rw [f3, s3]⟩
      rw [f1, s2, s3, s1]
      by_cases hm : tapEntryMatches bitmask acc.pod.IPAddress ip = true <;>
        by_cases ha : (ips.any (fun x => tapEntryMatches bitmask acc.pod.IPAddress x)) = true <;>
        simp [hm, ha, filter_ne_idem]

theorem tapIntfStep_char (bitmask : Nat) (acc : TapAcc) (kv : Nat × NodeInterface) :
    (tapIntfStep bitmask acc kv).podMap
      = (if (goContains kv.2.IfMeta.VppInternalName "tap" &&
             kv.2.If.IPAddresses.any (fun ip => tapEntryMatches bitmask acc.pod.IPAddress ip)) = true
         then acc.podMap.filter (fun x => x != acc.pod.Name) else acc.podMap) ∧
    (tapIntfStep bitmask acc kv).pod.IPAddress = acc.pod.IPAddress ∧
    (tapIntfStep bitmask acc kv).pod.Name = acc.pod.Name := by
  unfold tapIntfStep
  by_cases hc : goContains kv.2.IfMeta.VppInternalName "tap" = true
  · obtain ⟨h1, h2, h3⟩ := tapIPFold_char bitmask kv.2 kv.2.If.IPAddresses acc
    rw [if_pos hc]
    exact ⟨by rw [h1]; simp [hc], h2, h3⟩
  · rw [if_neg hc]
    have hc0 : goContains kv.2.IfMeta.VppInternalName "tap" = false := by simpa using hc
    simp [hc0]

theorem tapScan_char (bitmask : Nat) (ifs : List (Nat × NodeInterface)) :
    ∀ acc : TapAcc,
      ((ifs.foldl (tapIntfStep bitmask) acc).podMap
        = if ifs.any (fun kv =>
              goContains kv.2.IfMeta.VppInternalName "tap" &&
              kv.2.If.IPAddresses.any (fun ip => tapEntryMatches bitmask acc.pod.IPAddress ip)) = true
          then acc.podMap.filter (fun x => x != acc.pod.Name)
          else acc.podMap) ∧
      (ifs.foldl (tapIntfStep bitmask) acc).pod.IPAddress = acc.pod.IPAddress ∧
      (ifs.foldl (tapIntfStep bitmask) acc).pod.Name = acc.pod.Name := by
  induction ifs with
  | nil => intro acc; simp
  | cons kv ifs ih =>
      intro acc
      obtain ⟨s1, s2, s3⟩ := tapIntfStep_char bitmask acc kv
      obtain ⟨f1, f2, f3⟩ := ih (tapIntfStep bitmask acc kv)
      simp only [List.foldl_cons, List.any_cons]
      refine ⟨?_, by rw [f2, s2], by rw [f3, s3]⟩
      rw [f1, s2, s3, s1]
      by_cases hm : (goContains kv.2.IfMeta.VppInternalName "tap" &&
          kv.2.If.IPAddresses.any (fun ip => tapEntryMatches bitmask acc.pod.IPAddress ip)) = true <;>
        by_cases ha : (ifs.any (fun kv2 =>
            goContains kv2.2.IfMeta.VppInternalName "tap" &&
            kv2.2.If.IPAddresses.any (fun ip => tapEntryMatches bitmask acc.pod.IPAddress ip))) = true <;>
        simp [hm, ha, filter_ne_idem]


/-- Specification-side definition, following the claim's words: the subnet
mask derived from a Pod CIDR prefix length `ml` — the *high* `ml` bits of a
32-bit address. -/
def specSubnetMask (ml : Nat) : Nat := 2 ^ 32 - 2 ^ (32 - min ml 32)

/-- Specification-side definition, following the claim's words: the subnet
of a tap entry's address under prefix length `ml` contains the pod's IP,
i.e. the two addresses agree on the high `ml` bits. -/
def specSubnetContains (tapIP : String) (ml : Nat) (podIP : String) : Bool :=
  (ip2uint32 podIP &&& specSubnetMask ml) == (ip2uint32 tapIP &&& specSubnetMask ml)

/-- C1/C5/C8 fixture: a pod on node N1, whose single tap interface carries
`10.2.2.5/24` while the pod's IP is `10.1.1.5` and the Pod CIDR is
`10.0.0.0/24`. -/
def tapIf1 : NodeInterface :=
  { If := { Name := "tap-p1", IfType := .TAP_INTERFACE, PhysAddress := "",
            IPAddresses := ["10.2.2.5/24"], Vxlan := ⟨"", "", 0⟩ },
    IfMeta := ⟨"tap3", 9⟩ }

def tapNode1 : Node := ⟨"N1", [(5, tapIf1)], [], [], [], []⟩

def tapVpp1 : VppCache := ⟨[tapNode1], [], [], [], [("192.168.1.10", tapNode1)]⟩

def tapK8s1 : K8sCache := ⟨[⟨"N1", "10.0.0.0/24", []⟩], []⟩

def tapPod1 : Pod := ⟨1, "p1", "192.168.1.10", "10.1.1.5", "", "", "", 0⟩

/-- **C1, counterexample.**  `maskLength2Mask` sets the *low* `32 − ml`
bits, so the code compares host bits, not subnet bits: the binder binds
pod `10.1.1.5` to the tap entry `10.2.2.5/24` (equal low 8 bits) although
that entry's /24 subnet does not contain the pod's IP. -/
theorem C1_counterexample :
    tapStepPod tapVpp1 tapK8s1 ["p1"] [] tapPod1
      = some ([], [],
          { tapPod1 with
              VppIfIPAddr := "10.2.2.5/24", VppIfInternalName := "tap3",
              VppIfName := "tap-p1", VppSwIfIdx := 9 }) ∧
    specSubnetContains "10.2.2.5" 24 "10.1.1.5" = false := by
  decide

/-- **C1 (amended).**  For a pod not using host networking whose host IP
and K8s node resolve and whose Pod CIDR mask parses to `v`, the binder
scans the node's tap interfaces with `maskLength2Mask v` — the mask of the
low `32 − v` bits — and removes the pod from tracking (binding it) exactly
when some tap interface has an IP/prefix entry agreeing with the pod's IP
on those host bits; subnet containment plays no role. -/
theorem C1_binding_iff_hostbits_match (vpp : VppCache) (k8s : K8sCache)
    (podMap : List String) (reports : List TapMsg) (pod : Pod)
    (vppNode : Node) (k8sNode : K8sNode) (m : String) (v : Int)
    (hne : (pod.IPAddress == pod.HostIPAddress) = false)
    (hhost : vpp.RetrieveNodeByHostIPAddr pod.HostIPAddress = some vppNode)
    (hk8s : k8s.RetrieveK8sNode vppNode.Name = some k8sNode)
    (hmask : (goSplit k8sNode.Pod_CIDR "/").get? 1 = some m)
    (hatoi : goAtoi m = (v, true)) :
    tapStepPod vpp k8s podMap reports pod
      = some ((tapScanIfs (maskLength2Mask v) vppNode ⟨podMap, pod⟩).podMap, reports,
              (tapScanIfs (maskLength2Mask v) vppNode ⟨podMap, pod⟩).pod) ∧
    (tapScanIfs (maskLength2Mask v) vppNode ⟨podMap, pod⟩).podMap
      = (if nodeHasTapMatch (maskLength2Mask v) vppNode pod.IPAddress = true
         then podMap.filter (fun x => x != pod.Name) else podMap) := by
  constructor
  · unfold tapStepPod
    rw [if_neg (by simp [hne] : ¬((pod.IPAddress == pod.HostIPAddress) = true)), hhost]
    dsimp only
    rw [hk8s]
    dsimp only
    rw [hmask]
    dsimp only
    rw [hatoi]
    rfl
  · have h := (tapScan_char (maskLength2Mask v) vppNode.NodeInterfaces ⟨podMap, pod⟩).1
    simpa [tapScanIfs, nodeHasTapMatch, tapEntryMatches] using h

/-- Closed instance of `C1_binding_iff_hostbits_match` at the C1
fixture. -/
theorem C1_witness :
    tapStepPod tapVpp1 tapK8s1 ["p1"] [] tapPod1
      = some ((tapScanIfs (maskLength2Mask 24) tapNode1 ⟨["p1"], tapPod1⟩).podMap, [],
              (tapScanIfs (maskLength2Mask 24) tapNode1 ⟨["p1"], tapPod1⟩).pod) ∧
    (tapScanIfs (maskLength2Mask 24) tapNode1 ⟨["p1"], tapPod1⟩).podMap
      = (if nodeHasTapMatch (maskLength2Mask 24) tapNode1 tapPod1.IPAddress = true
         then ["p1"].filter (fun x => x != tapPod1.Name) else ["p1"]) :=
  C1_binding_iff_hostbits_match tapVpp1 tapK8s1 ["p1"] [] tapPod1 tapNode1
    ⟨"N1", "10.0.0.0/24", []⟩ "24" 24 (by decide) (by decide) (by decide)
    (by decide) (by decide)

/-- K8s cache whose node record carries a Pod CIDR without a `/`. -/
def tapK8s5 : K8sCache := ⟨[⟨"N1", "10.1.0.0", []⟩], []⟩

/-- **C5 (code bug).**  `ValidateTapToPod` reads `str[1]` from
`strings.Split(Pod_CIDR, "/")` without checking its length; on a Pod CIDR
with no `/` the slice has length 1 and the Go code panics with an
index-out-of-range runtime error that escapes `Validate()` — contradicting
the spec's guarantee that no error ever crosses the validator's
boundary. -/
theorem C5_pod_cidr_panic :
    (goSplit "10.1.0.0" "/").length = 1 ∧
    tapStepPod tapVpp1 tapK8s5 ["p1"] [] tapPod1 = none := by
  decide

/-- A host-networked pod (IP equal to host IP). -/
def tapPod8 : Pod := ⟨2, "p8", "10.0.0.7", "10.0.0.7", "", "", "", 0⟩

/-- **C8.**  A pod whose IP equals its host IP is removed from the
tracking map and otherwise skipped: no report, the pod record (and so all
of its binding fields) returned unchanged; and the result is identical for
arbitrary caches — the branch performs no host-IP or K8s-node lookup. -/
theorem C8_host_networked_pod_skipped (vpp vpp2 : VppCache) (k8s k8s2 : K8sCache)
    (podMap : List String) (reports : List TapMsg) (pod : Pod)
    (h : pod.IPAddress = pod.HostIPAddress) :
    tapStepPod vpp k8s podMap reports pod
        = some (podMap.filter (fun x => x != pod.Name), reports, pod) ∧
    tapStepPod vpp k8s podMap reports pod = tapStepPod vpp2 k8s2 podMap reports pod := by
  have hb : (pod.IPAddress == pod.HostIPAddress) = true := by simp [h]
  constructor
  · unfold tapStepPod
    rw [if_pos hb]
  · unfold tapStepPod
    rw [if_pos hb, if_pos hb]

/-- Closed instance of `C8_host_networked_pod_skipped` at the fixture,
with two unrelated cache pairs. -/
theorem C8_witness :
    tapStepPod tapVpp1 tapK8s1 ["p8"] [] tapPod8 = some ([], [], tapPod8) ∧
    tapStepPod tapVpp1 tapK8s1 ["p8"] [] tapPod8
        = tapStepPod podVpp7 podK8s7 ["p8"] [] tapPod8 := by
  have h := C8_host_networked_pod_skipped tapVpp1 podVpp7 tapK8s1 podK8s7 ["p8"] [] tapPod8 rfl
  exact ⟨by rw [h.1]; rfl, h.2⟩

/-- C9 fixture (range error): the Pod CIDR's mask part overflows `Atoi`,
which then returns the clamped max int together with its error. -/
def tapIf9 : NodeInterface :=
  { If := { Name := "tap-p9", IfType := .TAP_INTERFACE, PhysAddress := "",
            IPAddresses := ["10.99.99.99/32"], Vxlan := ⟨"", "", 0⟩ },
    IfMeta := ⟨"tap7", 11⟩ }

def tapNode9 : Node := ⟨"N9", [(5, tapIf9)], [], [], [], []⟩

def tapVpp9 : VppCache := ⟨[tapNode9], [], [], [], [("192.168.1.10", tapNode9)]⟩

def tapK8s9 : K8sCache := ⟨[⟨"N9", "10.1.0.0/99999999999999999999", []⟩], []⟩

def tapPod9 : Pod := ⟨1, "p9", "192.168.1.10", "10.1.1.5", "", "", "", 0⟩

/-- **C9, counterexample.**  On an out-of-range prefix length Go's `Atoi`
returns the clamped max int with its error, and `maskLength2Mask` of that
value is 0, not the all-32-bits mask: every entry matches, and the pod is
bound to a tap entry whose IP differs from the pod's — not "exact IP
equality" as the claim states. -/
theorem C9_counterexample :
    goAtoi "99999999999999999999" = ((2 : Int) ^ 63 - 1, false) ∧
    maskLength2Mask ((2 : Int) ^ 63 - 1) = 0 ∧
    tapStepPod tapVpp9 tapK8s9 ["p9"] [] tapPod9
      = some ([], [TapMsg.invalidPodCIDR "10.1.0.0/99999999999999999999"],
          { tapPod9 with
              VppIfIPAddr := "10.99.99.99/32", VppIfInternalName := "tap7",
              VppIfName := "tap-p9", VppSwIfIdx := 11 }) ∧
    ip2uint32 "10.1.1.5" ≠ ip2uint32 "10.99.99.99" := by
  decide

/-- **C9 (amended).**  When parsing the Pod CIDR prefix length fails, the
binder reports the invalid Pod CIDR for that node but does not skip the
pod: the tap scan continues with `maskLength2Mask` applied to the value
`Atoi` returned alongside its error — 0 for a syntax error, which yields
the all-32-low-bits mask (exact IP equality); the clamped max int for an
out-of-range value, which yields mask 0 (every entry matches).  The pod
can thus still be bound and removed from tracking after the error. -/
theorem C9_parse_failure_reports_and_continues (vpp : VppCache) (k8s : K8sCache)
    (podMap : List String) (reports : List TapMsg) (pod : Pod)
    (vppNode : Node) (k8sNode : K8sNode) (m : String) (v : Int)
    (hne : (pod.IPAddress == pod.HostIPAddress) = false)
    (hhost : vpp.RetrieveNodeByHostIPAddr pod.HostIPAddress = some vppNode)
    (hk8s : k8s.RetrieveK8sNode vppNode.Name = some k8sNode)
    (hmask : (goSplit k8sNode.Pod_CIDR "/").get? 1 = some m)
    (hatoi : goAtoi m = (v, false)) :
    tapStepPod vpp k8s podMap reports pod
      = some ((tapScanIfs (maskLength2Mask v) vppNode ⟨podMap, pod⟩).podMap,
              reports ++ [TapMsg.invalidPodCIDR k8sNode.Pod_CIDR],
              (tapScanIfs (maskLength2Mask v) vppNode ⟨podMap, pod⟩).pod) ∧
    maskLength2Mask 0 = 2 ^ 32 - 1 := by
  constructor
  · unfold tapStepPod
    rw [if_neg (by simp [hne] : ¬((pod.IPAddress == pod.HostIPAddress) = true)), hhost]
    dsimp only
    rw [hk8s]
    dsimp only
    rw [hmask]
    dsimp only
    rw [hatoi]
    rfl
  · decide

/-- C9 witness fixture (syntax error): mask part `"abc"`, tap entry equal
to the pod's IP. -/
def tapIf9b : NodeInterface :=
  { If := { Name := "tap-p9b", IfType := .TAP_INTERFACE, PhysAddress := "",
            IPAddresses := ["10.1.1.5/32"], Vxlan := ⟨"", "", 0⟩ },
    IfMeta := ⟨"tap8", 12⟩ }

def tapNode9b : Node := ⟨"N9b", [(5, tapIf9b)], [], [], [], []⟩

def tapVpp9b : VppCache := ⟨[tapNode9b], [], [], [], [("192.168.1.10", tapNode9b)]⟩

def tapK8s9b : K8sCache := ⟨[⟨"N9b", "10.1.0.0/abc", []⟩], []⟩

/-- Closed instance of `C9_parse_failure_reports_and_continues` on a
syntax-error mask. -/
theorem C9_witness :
    tapStepPod tapVpp9b tapK8s9b ["p9"] [] tapPod9
      = some ((tapScanIfs (maskLength2Mask 0) tapNode9b ⟨["p9"], tapPod9⟩).podMap,
              [TapMsg.invalidPodCIDR "10.1.0.0/abc"],
              (tapScanIfs (maskLength2Mask 0) tapNode9b ⟨["p9"], tapPod9⟩).pod) ∧
    maskLength2Mask 0 = 2 ^ 32 - 1 :=
  C9_parse_failure_reports_and_continues tapVpp9b tapK8s9b ["p9"] [] tapPod9 tapNode9b
    ⟨"N9b", "10.1.0.0/abc", []⟩ "abc" 0 (by decide) (by decide) (by decide)
    (by decide) (by decide)


end ContivL2
